import Mathlib

/-!
Verification of the AeroVision flight-price dashboard core: the client
orchestrator (src/src/App.tsx, function fetchAIPrediction and the weather
helpers) and the prediction proxy (the serverless handler in
src/unnamed/part_000, with the express variant in src/server.ts).

The JavaScript code is shallowly embedded: JSON values become an inductive
type, JavaScript truthiness and optional chaining are made explicit, the
environment and the upstream LLM call become parameters of the handler
function, and randomness becomes explicit Fin-valued parameters.
-/

/-- A JSON / JavaScript value as it flows through the proxy and the client.
Numbers are modelled as integers: every number the claims touch (prices,
status codes, weather codes) is integral in the source. -/
inductive Json where
  | null
  | bool (b : Bool)
  | num (n : Int)
  | str (s : String)
  | arr (elems : List Json)
  | obj (fields : List (String × Json))

/-- JavaScript truthiness of a value (null, false, 0 and the empty string
are falsy; arrays and objects are always truthy). -/
def Json.truthy : Json → Bool
  | .null => false
  | .bool b => b
  | .num n => n ≠ 0
  | .str s => s ≠ ""
  | .arr _ => true
  | .obj _ => true

/-- Property access `v?.k` on a JSON value: defined only on objects. -/
def Json.getKey : Json → String → Option Json
  | .obj fields, k => fields.lookup k
  | _, _ => none

/-- Index access `v?.[i]` on a JSON value: defined only on arrays. -/
def Json.getIdx : Json → Nat → Option Json
  | .arr elems, i => elems[i]?
  | _, _ => none

/-- JavaScript template-literal stringification of a value, used when the
client interpolates a JSON value into a display string. -/
def Json.jsToString : Json → String
  | .null => "null"
  | .bool b => if b then "true" else "false"
  | .num n => toString n
  | .str s => s
  | .arr elems => String.intercalate "," (elems.attach.map fun p => p.1.jsToString)
  | .obj _ => "[object Object]"
decreasing_by
  have := List.sizeOf_lt_of_mem p.2
  simp_wf
  omega

/-- The JavaScript `x || d` applied to an optional chain result `x`:
if the chain produced a truthy value, keep it, otherwise use `d`
(undefined counts as falsy). -/
def jsOr (x : Option Json) (d : Json) : Json :=
  match x with
  | some v => if v.truthy then v else d
  | none => d

/-- The fixed fallback message of the client orchestrator. -/
def fallbackMsg : String := "Unable to generate prediction at this time."

/-- Access path (a) of fetchAIPrediction:
`response.data?.choices?.[0]?.message?.content`. -/
def contentPathDirect (body : Json) : Option Json :=
  (((body.getKey "choices").bind (Json.getIdx · 0)).bind
    (Json.getKey · "message")).bind (Json.getKey · "content")

/-- Access path (b) of fetchAIPrediction: the same path nested one level
under a `data` wrapper, `response.data?.data?.choices?.[0]?.message?.content`. -/
def contentPathWrapped (body : Json) : Option Json :=
  (body.getKey "data").bind contentPathDirect

/-- The extraction chain of fetchAIPrediction (App.tsx lines 224-226):
`path(a) || path(b) || fallbackMsg`, with JavaScript truthiness. -/
def extractContent (body : Json) : Json :=
  jsOr (contentPathDirect body) (jsOr (contentPathWrapped body) (.str fallbackMsg))

/-- The first strategy of an ordered list of extraction strategies that
produced a truthy value (the normalization policy the specification
describes). -/
def firstTruthy (xs : List (Option Json)) : Option Json :=
  match xs with
  | [] => none
  | x :: rest =>
    match x with
    | some v => if v.truthy then some v else firstTruthy rest
    | none => firstTruthy rest

example :
    extractContent (.obj [("choices", .arr [.obj [("message",
      .obj [("content", .str "Buy now")])]])]) = .str "Buy now" := by rfl

example :
    extractContent (.obj [("data", .obj [("choices", .arr [.obj [("message",
      .obj [("content", .str "Wait")])]])])]) = .str "Wait" := by rfl

example : extractContent (.obj []) = .str fallbackMsg := by rfl

/-! ## The prediction proxy (serverless handler, src/unnamed/part_000) -/

/-- Result of one inbound request to the proxy handler: HTTP status,
optional JSON body, response headers, and how many outbound network calls
to the upstream LLM API were made while producing the response. -/
structure HandlerResult where
  status : Nat
  body : Option Json
  headers : List (String × String)
  networkCalls : Nat

/-- The CORS headers the handler sets unconditionally before any routing. -/
def corsHeaders : List (String × String) :=
  [("Access-Control-Allow-Credentials", "true"),
   ("Access-Control-Allow-Origin", "*"),
   ("Access-Control-Allow-Methods", "GET,OPTIONS,PATCH,DELETE,POST,PUT"),
   ("Access-Control-Allow-Headers",
    "X-CSRF-Token, X-Requested-With, Accept, Accept-Version, Content-Length, Content-MD5, Content-Type, Date, X-Api-Version")]

/-- `process.env.X || ...` treats an unset variable and a variable set to
the empty string the same way: both are falsy. -/
def truthyEnv (v : Option String) : Option String :=
  match v with
  | some s => if s = "" then none else some s
  | none => none

/-- Credential resolution of the serverless handler:
`process.env.ARK_API_KEY || process.env.DOUBAO_API_KEY`. -/
def resolveCredential (ark dou : Option String) : Option String :=
  match truthyEnv ark with
  | some s => some s
  | none => truthyEnv dou

/-- The JSON error body the handler sends from its catch block:
an `error` summary plus `details` holding the caught error message. -/
def proxyErrorBody (details : String) : Json :=
  .obj [("error", .str "Failed to fetch prediction"), ("details", .str details)]

/-- The message of the error thrown when no credential resolves. -/
def missingKeyMsg : String := "Missing ARK_API_KEY environment variable"

/-- The serverless proxy handler (src/unnamed/part_000), embedded as a
function of the request method, the two credential environment variables,
the request prompt, and the behaviour of the upstream chat-completion call
(`upstream apiKey prompt` returns either the upstream JSON response or the
message of a raised error). Mirrors the source line by line: CORS headers
first, then the OPTIONS branch, then the method gate, then credential
resolution (a missing credential throws before the upstream call and is
caught by the same catch block as an upstream failure). -/
def handler (method : String) (envArk envDou : Option String) (prompt : String)
    (upstream : String → String → Except String Json) : HandlerResult :=
  if method = "OPTIONS" then
    ⟨200, none, corsHeaders, 0⟩
  else if method ≠ "POST" then
    ⟨405, some (.obj [("error", .str "Method Not Allowed")]), corsHeaders, 0⟩
  else
    match resolveCredential envArk envDou with
    | none => ⟨500, some (proxyErrorBody missingKeyMsg), corsHeaders, 0⟩
    | some apiKey =>
      match upstream apiKey prompt with
      | .ok resp => ⟨200, some resp, corsHeaders, 1⟩
      | .error msg => ⟨500, some (proxyErrorBody msg), corsHeaders, 1⟩

/-! ## The client orchestrator (src/src/App.tsx, fetchAIPrediction) -/

/-- One sample of the mock flight-price series. -/
structure FlightData where
  date : String
  price : Int
  airline : String
deriving Repr, DecidableEq

/-- JavaScript `Math.round`: round half toward positive infinity. -/
def jsRound (q : ℚ) : Int := ⌊q + 1 / 2⌋

/-- `data.slice(0, 10).map(d => d.price)`: the leading window of up to 10
prices the orchestrator summarizes. -/
def windowPrices (data : List FlightData) : List Int :=
  (data.take 10).map (·.price)

/-- `prices[0]`, undefined on an empty window. -/
def currentPrice (prices : List Int) : Option Int := prices[0]?

/-- `Math.round(prices.reduce((a, b) => a + b, 0) / prices.length)`:
the rounded arithmetic mean, undefined (NaN in JavaScript) on an empty
window. -/
def averagePrice (prices : List Int) : Option Int :=
  if prices.length = 0 then none
  else some (jsRound ((prices.sum : ℚ) / (prices.length : ℚ)))

/-- JavaScript `a > b` where either operand may be undefined: any
comparison with undefined is false. -/
def jsGT : Option Int → Option Int → Bool
  | some a, some b => a > b
  | _, _ => false

/-- The trend of the prompt: `prices[9] > prices[0] ? "Increasing" :
"Decreasing"`. -/
def trend (prices : List Int) : String :=
  if jsGT prices[9]? prices[0]? then "Increasing" else "Decreasing"

/-- The prompt the orchestrator builds, defined when its numeric pieces
are (a window of at least one sample); an empty window would interpolate
undefined and NaN instead of failing. -/
def buildPrompt (from_ to_ : String) (data : List FlightData) : Option String :=
  let prices := windowPrices data
  match currentPrice prices, averagePrice prices with
  | some c, some a =>
    some ("Analyze flight prices from " ++ from_ ++ " to " ++ to_ ++
      ". Current price: $" ++ toString c ++
      ". Next 10 days average: $" ++ toString a ++
      ". Trend: " ++ trend prices ++
      ". Provide a short, strategic advice (max 50 words) on whether to buy now or wait. Be professional and concise.")
  | _, _ => none

/-- Outcome of the awaited `axios.post` call as the catch block sees it:
a 2xx response with a body, a non-2xx response (axios raises an error
carrying the response body and a message), or a transport failure (an
error with no response attached). -/
inductive PostOutcome where
  | ok (body : Json)
  | httpErr (status : Nat) (body : Json) (msg : String)
  | netErr (msg : String)

/-- `err.response?.data?.details || err.message`, then template
interpolation of the selected value. -/
def errorDetail (respBody : Option Json) (msg : String) : String :=
  match respBody.bind (Json.getKey · "details") with
  | some v => if v.truthy then v.jsToString else msg
  | none => msg

/-- The fixed error template of the catch block. -/
def analysisErrorText (detail : String) : String :=
  "Analysis Error: " ++ detail ++ ". Please check API Key configuration."

/-- What fetchAIPrediction stores into the prediction state for a given
outcome of the proxy call: the extracted content on success, the formatted
error text on any failure. Total — every path of the source is inside the
try/catch, so no outcome escapes as an exception. -/
def predictionDisplay (o : PostOutcome) : Json :=
  match o with
  | .ok body => extractContent body
  | .httpErr _ body msg => .str (analysisErrorText (errorDetail (some body) msg))
  | .netErr msg => .str (analysisErrorText (errorDetail none msg))

/-! ## The weather consumer (src/src/App.tsx, fetchWeather) -/

/-- The weather state the UI stores. -/
structure WeatherData where
  temp : Int
  condition : String
  windSpeed : Int
deriving Repr, DecidableEq

/-- Coordinates of a known airport. -/
structure Coords where
  lat : ℚ
  lon : ℚ
  name : String

/-- The airportCoords lookup table of App.tsx. -/
def airportCoords : List (String × Coords) :=
  [("PEK", ⟨40.0799, 116.6031, "Beijing Capital"⟩),
   ("TYO", ⟨35.6895, 139.6917, "Tokyo"⟩),
   ("HND", ⟨35.5494, 139.7798, "Tokyo Haneda"⟩),
   ("NRT", ⟨35.7720, 140.3929, "Tokyo Narita"⟩),
   ("LAX", ⟨33.9416, -118.4085, "Los Angeles"⟩),
   ("JFK", ⟨40.6413, -73.7781, "New York JFK"⟩),
   ("LHR", ⟨51.4700, -0.4543, "London Heathrow"⟩),
   ("DXB", ⟨25.2532, 55.3657, "Dubai"⟩),
   ("SIN", ⟨1.3644, 103.9915, "Singapore Changi"⟩),
   ("CDG", ⟨49.0097, 2.5479, "Paris Charles de Gaulle"⟩),
   ("AMS", ⟨52.3105, 4.7683, "Amsterdam Schiphol"⟩),
   ("FRA", ⟨50.0379, 8.5622, "Frankfurt"⟩),
   ("HKG", ⟨22.3080, 113.9185, "Hong Kong"⟩),
   ("SYD", ⟨-33.9399, 151.1753, "Sydney"⟩)]

/-- The WMO weather-code mapping of fetchWeather, with the branches in
source order. -/
def getWeatherCondition (wmoCode : Int) : String :=
  if wmoCode = 0 then "Clear Sky"
  else if 1 ≤ wmoCode ∧ wmoCode ≤ 3 then "Partly Cloudy"
  else if 45 ≤ wmoCode ∧ wmoCode ≤ 48 then "Foggy"
  else if 51 ≤ wmoCode ∧ wmoCode ≤ 67 then "Rainy"
  else if 71 ≤ wmoCode ∧ wmoCode ≤ 77 then "Snowy"
  else if 80 ≤ wmoCode ∧ wmoCode ≤ 82 then "Heavy Rain"
  else if 95 ≤ wmoCode then "Thunderstorm"
  else "Unknown"

/-- Outcome of the open-meteo request: current temperature, numeric
weather code and wind speed, or a failed fetch. -/
inductive WeatherOutcome where
  | ok (temp : ℚ) (code : Int) (wind : ℚ)
  | err

/-- The weather state fetchWeather stores. The three Fin parameters are
the three `Math.floor(Math.random() * n)` draws of the unknown-airport
fallback branch; the network outcome is a parameter and is only consulted
when the airport is known. -/
def fetchWeather (code : String) (r1 : Fin 10) (r2 : Fin 3) (r3 : Fin 15)
    (outcome : WeatherOutcome) : WeatherData :=
  match airportCoords.lookup code with
  | none =>
    ⟨20 + (r1 : Int), ["Sunny", "Cloudy", "Clear"].get ⟨(r2 : Nat), by simp⟩,
     10 + (r3 : Int)⟩
  | some _ =>
    match outcome with
    | .ok t c w => ⟨jsRound t, getWeatherCondition c, jsRound w⟩
    | .err => ⟨22, "Data Unavailable", 0⟩

/-! ## Theorems -/

/-- C1 counterexample: for the body whose content is the number 5, neither
probed path yields a string, yet the displayed value is 5, not the fixed
fallback message the claim requires. -/
theorem c1_counterexample :
    contentPathDirect (.obj [("choices", .arr [.obj [("message",
      .obj [("content", .num 5)])]])]) = some (.num 5) ∧
    contentPathWrapped (.obj [("choices", .arr [.obj [("message",
      .obj [("content", .num 5)])]])]) = none ∧
    extractContent (.obj [("choices", .arr [.obj [("message",
      .obj [("content", .num 5)])]])]) = .num 5 ∧
    Json.num 5 ≠ .str fallbackMsg := by
  refine ⟨rfl, rfl, rfl, ?_⟩
  intro h
  cases h

/-- C1 (amended): the orchestrator probes, in order, path (a)
`choices[0].message.content` on the body and path (b) the same path under
a `data` wrapper, and displays the first truthy value found (even when it
is not a string); when neither path yields a truthy value the displayed
text equals exactly the fixed fallback message. For the body with content
"Buy now" at path (a) the output equals "Buy now". -/
theorem c1_extraction_chain :
    (∀ body : Json, extractContent body =
      (firstTruthy [contentPathDirect body, contentPathWrapped body]).getD
        (.str fallbackMsg)) ∧
    extractContent (.obj [("choices", .arr [.obj [("message",
      .obj [("content", .str "Buy now")])]])]) = .str "Buy now" ∧
    (∀ body : Json,
      firstTruthy [contentPathDirect body, contentPathWrapped body] = none →
      extractContent body = .str fallbackMsg) := by
  have key : ∀ body : Json, extractContent body =
      (firstTruthy [contentPathDirect body, contentPathWrapped body]).getD
        (.str fallbackMsg) := by
    intro body
    simp only [extractContent, jsOr, firstTruthy]
    cases h1 : contentPathDirect body with
    | none =>
      cases h2 : contentPathWrapped body with
      | none => rfl
      | some v => by_cases hv : v.truthy <;> simp [hv]
    | some v =>
      by_cases hv : v.truthy
      · simp [hv]
      · cases h2 : contentPathWrapped body with
        | none => simp [hv]
        | some w => by_cases hw : w.truthy <;> simp [hv, hw]
  refine ⟨key, rfl, ?_⟩
  intro body h
  rw [key body, h]
  rfl

/-- C1 witness: a body matching neither shape makes the chain yield
nothing, and the displayed text is the fallback message. -/
theorem c1_extraction_chain_witness :
    firstTruthy [contentPathDirect (.obj []), contentPathWrapped (.obj [])] = none ∧
    extractContent (.obj []) = .str fallbackMsg :=
  ⟨rfl, c1_extraction_chain.2.2 (.obj []) rfl⟩

/-- C10 counterexample: a body holding the empty string at probed path (a)
and a truthy string at probed path (b) contains falsy content at one of
the probed paths, yet the displayed text is "Wait", not the fallback the
claim requires: a falsy value merely lets the chain continue to the next
path. -/
theorem c10_counterexample :
    contentPathDirect (.obj [("choices", .arr [.obj [("message",
      .obj [("content", .str "")])]]),
      ("data", .obj [("choices", .arr [.obj [("message",
      .obj [("content", .str "Wait")])]])])]) = some (.str "") ∧
    (Json.str "").truthy = false ∧
    extractContent (.obj [("choices", .arr [.obj [("message",
      .obj [("content", .str "")])]]),
      ("data", .obj [("choices", .arr [.obj [("message",
      .obj [("content", .str "Wait")])]])])]) = .str "Wait" ∧
    Json.str "Wait" ≠ .str fallbackMsg := by
  refine ⟨rfl, rfl, rfl, ?_⟩
  simp [fallbackMsg]

/-- C10 (amended): when every probed path yields either no value or a
falsy value, the orchestrator displays the fixed fallback message — the
extraction chain treats falsy content as absent. In particular a 2xx body
whose only content, at path (a), is the empty string displays the
fallback rather than the empty text. -/
theorem c10_falsy_content :
    (∀ body : Json,
      (∀ v, contentPathDirect body = some v → v.truthy = false) →
      (∀ v, contentPathWrapped body = some v → v.truthy = false) →
      extractContent body = .str fallbackMsg) ∧
    extractContent (.obj [("choices", .arr [.obj [("message",
      .obj [("content", .str "")])]])]) = .str fallbackMsg := by
  refine ⟨?_, rfl⟩
  intro body h1 h2
  simp only [extractContent, jsOr]
  cases hd : contentPathDirect body with
  | none =>
    cases hw : contentPathWrapped body with
    | none => rfl
    | some v => simp [h2 v hw]
  | some v =>
    cases hw : contentPathWrapped body with
    | none => simp [h1 v hd]
    | some w => simp [h1 v hd, h2 w hw]

/-- C10 witness: the empty-string content body satisfies both falsiness
hypotheses and displays the fallback. -/
theorem c10_falsy_content_witness :
    extractContent (.obj [("choices", .arr [.obj [("message",
      .obj [("content", .str "")])]])]) = .str fallbackMsg :=
  c10_falsy_content.1 (.obj [("choices", .arr [.obj [("message",
      .obj [("content", .str "")])]])])
    (fun v hv => by
      simp only [show contentPathDirect (.obj [("choices", .arr [.obj [("message",
        .obj [("content", .str "")])]])]) = some (.str "") from rfl] at hv
      cases hv
      rfl)
    (fun v hv => by
      simp only [show contentPathWrapped (.obj [("choices", .arr [.obj [("message",
        .obj [("content", .str "")])]])]) = none from rfl] at hv
      cases hv)

/-- C2: the serverless handler resolves its credential from ARK_API_KEY
first, then DOUBAO_API_KEY, primary taking precedence; when neither
resolves, a POST returns status 500 with the explicit missing-credential
error body and zero outbound network calls (the missing-credential error
is raised before the upstream call). -/
theorem c2_credential_fail_fast :
    (∀ (a : String) (dou : Option String), a ≠ "" →
      resolveCredential (some a) dou = some a) ∧
    (∀ d : String, d ≠ "" →
      resolveCredential none (some d) = some d ∧
      resolveCredential (some "") (some d) = some d) ∧
    (∀ (envArk envDou : Option String) (prompt : String)
       (upstream : String → String → Except String Json),
      resolveCredential envArk envDou = none →
      (handler "POST" envArk envDou prompt upstream).status = 500 ∧
      (handler "POST" envArk envDou prompt upstream).body =
        some (proxyErrorBody missingKeyMsg) ∧
      (handler "POST" envArk envDou prompt upstream).networkCalls = 0) := by
  refine ⟨?_, ?_, ?_⟩
  · intro a dou ha
    simp [resolveCredential, truthyEnv, ha]
  · intro d hd
    constructor <;> simp [resolveCredential, truthyEnv, hd]
  · intro envArk envDou prompt upstream h
    simp [handler, h]

/-- C2 witness: with neither environment variable set, a POST yields a 500
with the missing-credential body and no network call; precedence checks at
concrete keys. -/
theorem c2_credential_fail_fast_witness :
    resolveCredential (some "k1") (some "k2") = some "k1" ∧
    resolveCredential none (some "k2") = some "k2" ∧
    (handler "POST" none none "p" (fun _ _ => .ok .null)).status = 500 ∧
    (handler "POST" none none "p" (fun _ _ => .ok .null)).body =
      some (proxyErrorBody missingKeyMsg) ∧
    (handler "POST" none none "p" (fun _ _ => .ok .null)).networkCalls = 0 :=
  ⟨c2_credential_fail_fast.1 "k1" (some "k2") (by decide),
   (c2_credential_fail_fast.2.1 "k2" (by decide)).1,
   (c2_credential_fail_fast.2.2 none none "p" (fun _ _ => .ok .null) rfl).1,
   (c2_credential_fail_fast.2.2 none none "p" (fun _ _ => .ok .null) rfl).2.1,
   (c2_credential_fail_fast.2.2 none none "p" (fun _ _ => .ok .null) rfl).2.2⟩

/-- C7: on the prediction path, an OPTIONS request returns status 200 with
no body and the (non-empty) CORS headers; any method other than POST and
OPTIONS returns 405 with the Method Not Allowed body. -/
theorem c7_method_gate :
    (∀ (envArk envDou : Option String) (prompt : String)
       (upstream : String → String → Except String Json),
      handler "OPTIONS" envArk envDou prompt upstream =
        ⟨200, none, corsHeaders, 0⟩) ∧
    corsHeaders ≠ [] ∧
    (∀ (m : String) (envArk envDou : Option String) (prompt : String)
       (upstream : String → String → Except String Json),
      m ≠ "POST" → m ≠ "OPTIONS" →
      (handler m envArk envDou prompt upstream).status = 405 ∧
      (handler m envArk envDou prompt upstream).body =
        some (.obj [("error", .str "Method Not Allowed")]) ∧
      (handler m envArk envDou prompt upstream).headers = corsHeaders ∧
      (handler m envArk envDou prompt upstream).networkCalls = 0) := by
  refine ⟨fun _ _ _ _ => rfl, by decide, ?_⟩
  intro m envArk envDou prompt upstream hpost hopt
  simp [handler, hpost, hopt]

/-- C7 witness: a GET on the prediction path returns 405 with the Method
Not Allowed body and no network call. -/
theorem c7_method_gate_witness :
    handler "OPTIONS" none none "p" (fun _ _ => .ok .null) =
      ⟨200, none, corsHeaders, 0⟩ ∧
    (handler "GET" none none "p" (fun _ _ => .ok .null)).status = 405 ∧
    (handler "GET" none none "p" (fun _ _ => .ok .null)).body =
      some (.obj [("error", .str "Method Not Allowed")]) :=
  ⟨c7_method_gate.1 none none "p" (fun _ _ => .ok .null),
   (c7_method_gate.2.2 "GET" none none "p" (fun _ _ => .ok .null)
     (by decide) (by decide)).1,
   (c7_method_gate.2.2 "GET" none none "p" (fun _ _ => .ok .null)
     (by decide) (by decide)).2.1⟩

/-- C8: with a resolved credential, an upstream success is relayed to the
caller unmodified with status 200; an upstream error yields status 500
with a JSON body holding the fixed error summary and a details string that
is exactly the caught error message; and the handler result depends on the
resolved credential only through the upstream call — for any upstream
whose behaviour ignores the key, the full response is identical under
different credentials, so the handler itself never writes the raw
credential into a response. -/
theorem c8_relay :
    (∀ (envArk envDou : Option String) (prompt : String)
       (upstream : String → String → Except String Json) (apiKey : String)
       (resp : Json),
      resolveCredential envArk envDou = some apiKey →
      upstream apiKey prompt = .ok resp →
      handler "POST" envArk envDou prompt upstream =
        ⟨200, some resp, corsHeaders, 1⟩) ∧
    (∀ (envArk envDou : Option String) (prompt : String)
       (upstream : String → String → Except String Json) (apiKey : String)
       (msg : String),
      resolveCredential envArk envDou = some apiKey →
      upstream apiKey prompt = .error msg →
      handler "POST" envArk envDou prompt upstream =
        ⟨500, some (proxyErrorBody msg), corsHeaders, 1⟩) ∧
    (∀ (k k' prompt : String) (f : String → Except String Json),
      k ≠ "" → k' ≠ "" →
      handler "POST" (some k) none prompt (fun _ q => f q) =
        handler "POST" (some k') none prompt (fun _ q => f q)) := by
  refine ⟨?_, ?_, ?_⟩
  · intro envArk envDou prompt upstream apiKey resp hkey hup
    simp [handler, hkey, hup]
  · intro envArk envDou prompt upstream apiKey msg hkey hup
    simp [handler, hkey, hup]
  · intro k k' prompt f hk hk'
    simp [handler, resolveCredential, truthyEnv, hk, hk']

/-- C8 witness: concrete success and error relays, and key-independence of
the response at two distinct concrete keys. -/
theorem c8_relay_witness :
    handler "POST" (some "k1") none "p" (fun _ _ => .ok (.str "resp")) =
      ⟨200, some (.str "resp"), corsHeaders, 1⟩ ∧
    handler "POST" (some "k1") none "p" (fun _ _ => .error "boom") =
      ⟨500, some (proxyErrorBody "boom"), corsHeaders, 1⟩ ∧
    handler "POST" (some "k1") none "p" (fun _ q => .ok (.str q)) =
      handler "POST" (some "k2") none "p" (fun _ q => .ok (.str q)) :=
  ⟨c8_relay.1 (some "k1") none "p" (fun _ _ => .ok (.str "resp")) "k1"
     (.str "resp") rfl rfl,
   c8_relay.2.1 (some "k1") none "p" (fun _ _ => .error "boom") "k1"
     "boom" rfl rfl,
   c8_relay.2.2 "k1" "k2" "p" (fun q => .ok (.str q)) (by decide) (by decide)⟩

/-- C3 counterexample: a 500 response whose body carries the details field
with the empty string. The details field is present, so the claim requires
the displayed text "Analysis Error: . Please check API Key
configuration.", but the code treats the falsy details value as absent and
falls back to the transport error message. -/
theorem c3_counterexample :
    (Json.obj [("details", .str "")]).getKey "details" = some (.str "") ∧
    predictionDisplay (.httpErr 500 (.obj [("details", .str "")])
        "Request failed with status code 500") =
      .str "Analysis Error: Request failed with status code 500. Please check API Key configuration." ∧
    Json.str "Analysis Error: Request failed with status code 500. Please check API Key configuration." ≠
      .str "Analysis Error: . Please check API Key configuration." := by
  refine ⟨rfl, rfl, ?_⟩
  simp

/-- C3 (amended): the orchestrator never leaves a failure unhandled; on a
non-2xx response it displays exactly "Analysis Error: detail. Please check
API Key configuration." where detail is the server-supplied details field
when that field is present and truthy (stringified if not a string), and
the transport error message otherwise; on a transport failure with no
response, detail is the transport error message. -/
theorem c3_error_display :
    (∀ (s : Nat) (body : Json) (msg : String) (v : Json),
      body.getKey "details" = some v → v.truthy = true →
      predictionDisplay (.httpErr s body msg) =
        .str (analysisErrorText v.jsToString)) ∧
    (∀ (s : Nat) (body : Json) (msg : String),
      (∀ v, body.getKey "details" = some v → v.truthy = false) →
      predictionDisplay (.httpErr s body msg) =
        .str (analysisErrorText msg)) ∧
    (∀ msg : String, predictionDisplay (.netErr msg) =
      .str (analysisErrorText msg)) := by
  refine ⟨?_, ?_, fun _ => rfl⟩
  · intro s body msg v hv htrue
    simp [predictionDisplay, errorDetail, hv, htrue]
  · intro s body msg h
    simp only [predictionDisplay, errorDetail, Option.some_bind]
    cases hd : body.getKey "details" with
    | none => rfl
    | some v => simp [h v hd]

/-- C3 witness: a 500 with a truthy details string displays that detail; a
transport failure displays the transport message. -/
theorem c3_error_display_witness :
    predictionDisplay (.httpErr 500 (.obj [("details", .str "bad key")])
        "Request failed with status code 500") =
      .str (analysisErrorText "bad key") ∧
    predictionDisplay (.netErr "Network Error") =
      .str (analysisErrorText "Network Error") := by
  refine ⟨?_, c3_error_display.2.2 "Network Error"⟩
  have h := c3_error_display.1 500 (.obj [("details", .str "bad key")])
    "Request failed with status code 500" (.str "bad key") rfl rfl
  rw [h]
  simp [Json.jsToString]

/-- Taking the leading 10 elements is taking the leading min 10 length
elements. -/
theorem take_ten_eq_take_min {α : Type} (l : List α) :
    l.take 10 = l.take (min 10 l.length) := by
  rcases le_or_lt l.length 10 with h | h
  · rw [min_eq_right h, List.take_of_length_le h, List.take_length]
  · rw [min_eq_left (le_of_lt h)]

/-- C4: for a window of at least 10 samples, the trend embedded in the
prompt is "Increasing" exactly when the price of the 10th sample strictly
exceeds the price of the 1st, and "Decreasing" otherwise, including when
the two are equal. -/
theorem c4_trend :
    ∀ (data : List FlightData) (s0 s9 : FlightData),
      10 ≤ data.length → data[0]? = some s0 → data[9]? = some s9 →
      trend (windowPrices data) =
        if s9.price > s0.price then "Increasing" else "Decreasing" := by
  intro data s0 s9 _ h0 h9
  have w9 : (windowPrices data)[9]? = some s9.price := by
    rw [windowPrices, List.getElem?_map, List.getElem?_take_of_lt (by omega), h9]
    rfl
  have w0 : (windowPrices data)[0]? = some s0.price := by
    rw [windowPrices, List.getElem?_map, List.getElem?_take_of_lt (by omega), h0]
    rfl
  by_cases hgt : s9.price > s0.price <;> simp [trend, w9, w0, jsGT, hgt]

/-- A 10-sample window whose 1st price is 450 and 10th price is 500. -/
def trendSampleUp : List FlightData :=
  [⟨"2026-01-01", 450, "SkyHigh"⟩, ⟨"2026-01-02", 455, "AeroJet"⟩,
   ⟨"2026-01-03", 460, "CloudAir"⟩, ⟨"2026-01-04", 452, "SkyHigh"⟩,
   ⟨"2026-01-05", 448, "AeroJet"⟩, ⟨"2026-01-06", 465, "CloudAir"⟩,
   ⟨"2026-01-07", 470, "SkyHigh"⟩, ⟨"2026-01-08", 458, "AeroJet"⟩,
   ⟨"2026-01-09", 462, "CloudAir"⟩, ⟨"2026-01-10", 500, "SkyHigh"⟩]

/-- The same window with the 1st and 10th prices swapped. -/
def trendSampleDown : List FlightData :=
  [⟨"2026-01-01", 500, "SkyHigh"⟩, ⟨"2026-01-02", 455, "AeroJet"⟩,
   ⟨"2026-01-03", 460, "CloudAir"⟩, ⟨"2026-01-04", 452, "SkyHigh"⟩,
   ⟨"2026-01-05", 448, "AeroJet"⟩, ⟨"2026-01-06", 465, "CloudAir"⟩,
   ⟨"2026-01-07", 470, "SkyHigh"⟩, ⟨"2026-01-08", 458, "AeroJet"⟩,
   ⟨"2026-01-09", 462, "CloudAir"⟩, ⟨"2026-01-10", 450, "SkyHigh"⟩]

/-- C4 witness: sample prices 450 then 500 report "Increasing"; the
reversed pair reports "Decreasing". -/
theorem c4_trend_witness :
    trend (windowPrices trendSampleUp) = "Increasing" ∧
    trend (windowPrices trendSampleDown) = "Decreasing" := by
  constructor
  · rw [c4_trend trendSampleUp ⟨"2026-01-01", 450, "SkyHigh"⟩
      ⟨"2026-01-10", 500, "SkyHigh"⟩ (by decide) rfl rfl]
    norm_num
  · rw [c4_trend trendSampleDown ⟨"2026-01-01", 500, "SkyHigh"⟩
      ⟨"2026-01-10", 450, "SkyHigh"⟩ (by decide) rfl rfl]
    norm_num

/-- C5: for every non-empty window, the average embedded in the prompt is
the arithmetic mean of the prices of exactly the first min 10 length
samples, rounded half-up to the nearest integer (Math.round). -/
theorem c5_average :
    ∀ data : List FlightData, data ≠ [] →
      averagePrice (windowPrices data) =
        some (jsRound (((((data.take (min 10 data.length)).map (·.price)).sum : ℤ) : ℚ) /
          ((min 10 data.length : Nat) : ℚ))) := by
  intro data h
  have hpos : 0 < data.length := List.length_pos.mpr h
  have hlen : (windowPrices data).length = min 10 data.length := by
    simp [windowPrices, List.length_take]
  rw [averagePrice, if_neg (by omega), hlen]
  rw [windowPrices, take_ten_eq_take_min]

/-- The 10-price window of the specification example, summing to 4600. -/
def avgSample : List FlightData :=
  [⟨"2026-01-01", 450, "SkyHigh"⟩, ⟨"2026-01-02", 460, "AeroJet"⟩,
   ⟨"2026-01-03", 440, "CloudAir"⟩, ⟨"2026-01-04", 470, "SkyHigh"⟩,
   ⟨"2026-01-05", 430, "AeroJet"⟩, ⟨"2026-01-06", 480, "CloudAir"⟩,
   ⟨"2026-01-07", 420, "SkyHigh"⟩, ⟨"2026-01-08", 490, "AeroJet"⟩,
   ⟨"2026-01-09", 410, "CloudAir"⟩, ⟨"2026-01-10", 550, "SkyHigh"⟩]

/-- C5 witness: 10 prices summing to 4600 give average 460. -/
theorem c5_average_witness :
    avgSample ≠ [] ∧ averagePrice (windowPrices avgSample) = some 460 := by
  refine ⟨by decide, ?_⟩
  rw [c5_average avgSample (by decide)]
  norm_num [avgSample, jsRound]

/-- C6: for a window of at least 1 and fewer than 10 samples, the
orchestrator does not fail — the prompt is built — and the full window of
all available samples is what currentPrice, averagePrice and trend are
computed from. -/
theorem c6_short_window :
    ∀ (from_ to_ : String) (data : List FlightData) (d0 : FlightData),
      1 ≤ data.length → data.length < 10 → data[0]? = some d0 →
      (buildPrompt from_ to_ data).isSome = true ∧
      windowPrices data = data.map (·.price) ∧
      currentPrice (windowPrices data) = some d0.price ∧
      averagePrice (windowPrices data) =
        some (jsRound ((((data.map (·.price)).sum : ℤ) : ℚ) / (data.length : ℚ))) ∧
      trend (windowPrices data) = trend (data.map (·.price)) := by
  intro from_ to_ data d0 h1 h2 h0
  have hw : windowPrices data = data.map (·.price) := by
    rw [windowPrices, List.take_of_length_le (by omega)]
  have hc : currentPrice (windowPrices data) = some d0.price := by
    rw [hw, currentPrice, List.getElem?_map, h0]
    rfl
  have ha : averagePrice (windowPrices data) =
      some (jsRound ((((data.map (·.price)).sum : ℤ) : ℚ) / (data.length : ℚ))) := by
    rw [hw, averagePrice, if_neg (by rw [List.length_map]; omega), List.length_map]
  refine ⟨?_, hw, hc, ha, by rw [hw]⟩
  rw [buildPrompt]
  simp only [hc, ha]
  rfl

/-- A 3-sample window with prices 450, 470, 460. -/
def shortSample : List FlightData :=
  [⟨"2026-01-01", 450, "SkyHigh"⟩, ⟨"2026-01-02", 470, "AeroJet"⟩,
   ⟨"2026-01-03", 460, "CloudAir"⟩]

/-- C6 witness: a 3-sample window builds a prompt with current price 450
and average 460 over all three samples. -/
theorem c6_short_window_witness :
    (1:Nat) ≤ shortSample.length ∧ shortSample.length < 10 ∧
    (buildPrompt "PEK" "TYO" shortSample).isSome = true ∧
    currentPrice (windowPrices shortSample) = some 450 ∧
    averagePrice (windowPrices shortSample) = some 460 := by
  have h := c6_short_window "PEK" "TYO" shortSample
    ⟨"2026-01-01", 450, "SkyHigh"⟩ (by decide) (by decide) rfl
  refine ⟨by decide, by decide, h.1, h.2.2.1, ?_⟩
  rw [h.2.2.2.1]
  norm_num [shortSample, jsRound]

/-- C9: the weather consumer maps the numeric WMO code by range to exactly
the fixed categories — Clear Sky for 0, Partly Cloudy for 1 to 3, Foggy
for 45 to 48, Rainy for 51 to 67, Snowy for 71 to 77, Heavy Rain for 80 to
82, Thunderstorm from 95 on, Unknown otherwise — and for an airport code
with no known coordinates it substitutes a randomized plausible reading
(temperature 20 to 29, one of the three clear-ish conditions, wind 10 to
24) instead of failing. -/
theorem c9_weather :
    getWeatherCondition 0 = "Clear Sky" ∧
    (∀ c : Int, 1 ≤ c → c ≤ 3 → getWeatherCondition c = "Partly Cloudy") ∧
    (∀ c : Int, 45 ≤ c → c ≤ 48 → getWeatherCondition c = "Foggy") ∧
    (∀ c : Int, 51 ≤ c → c ≤ 67 → getWeatherCondition c = "Rainy") ∧
    (∀ c : Int, 71 ≤ c → c ≤ 77 → getWeatherCondition c = "Snowy") ∧
    (∀ c : Int, 80 ≤ c → c ≤ 82 → getWeatherCondition c = "Heavy Rain") ∧
    (∀ c : Int, 95 ≤ c → getWeatherCondition c = "Thunderstorm") ∧
    (∀ c : Int, c ≠ 0 → ¬(1 ≤ c ∧ c ≤ 3) → ¬(45 ≤ c ∧ c ≤ 48) →
      ¬(51 ≤ c ∧ c ≤ 67) → ¬(71 ≤ c ∧ c ≤ 77) → ¬(80 ≤ c ∧ c ≤ 82) →
      ¬(95 ≤ c) → getWeatherCondition c = "Unknown") ∧
    (∀ (code : String) (r1 : Fin 10) (r2 : Fin 3) (r3 : Fin 15)
       (o : WeatherOutcome),
      airportCoords.lookup code = none →
      20 ≤ (fetchWeather code r1 r2 r3 o).temp ∧
      (fetchWeather code r1 r2 r3 o).temp ≤ 29 ∧
      (fetchWeather code r1 r2 r3 o).condition ∈ ["Sunny", "Cloudy", "Clear"] ∧
      10 ≤ (fetchWeather code r1 r2 r3 o).windSpeed ∧
      (fetchWeather code r1 r2 r3 o).windSpeed ≤ 24) := by
  refine ⟨by decide, ?_, ?_, ?_, ?_, ?_, ?_, ?_, ?_⟩
  · intro c ha hb
    rw [getWeatherCondition, if_neg (by omega), if_pos (by omega)]
  · intro c ha hb
    rw [getWeatherCondition, if_neg (by omega), if_neg (by omega),
      if_pos (by omega)]
  · intro c ha hb
    rw [getWeatherCondition, if_neg (by omega), if_neg (by omega),
      if_neg (by omega), if_pos (by omega)]
  · intro c ha hb
    rw [getWeatherCondition, if_neg (by omega), if_neg (by omega),
      if_neg (by omega), if_neg (by omega), if_pos (by omega)]
  · intro c ha hb
    rw [getWeatherCondition, if_neg (by omega), if_neg (by omega),
      if_neg (by omega), if_neg (by omega), if_neg (by omega),
      if_pos (by omega)]
  · intro c ha
    rw [getWeatherCondition, if_neg (by omega), if_neg (by omega),
      if_neg (by omega), if_neg (by omega), if_neg (by omega),
      if_neg (by omega), if_pos (by omega)]
  · intro c h0 h1 h2 h3 h4 h5 h6
    rw [getWeatherCondition, if_neg (by omega), if_neg (by omega),
      if_neg (by omega), if_neg (by omega), if_neg (by omega),
      if_neg (by omega), if_neg (by omega)]
  · intro code r1 r2 r3 o hnone
    have hr1 : (r1 : Nat) < 10 := r1.isLt
    have hr3 : (r3 : Nat) < 15 := r3.isLt
    simp only [fetchWeather, hnone]
    refine ⟨by omega, by omega, ?_, by omega, by omega⟩
    exact List.get_mem _ _ _

/-- C9 witness: concrete codes land in each category, and the unknown
airport "ZZZ" receives the randomized fallback reading. -/
theorem c9_weather_witness :
    getWeatherCondition 2 = "Partly Cloudy" ∧
    getWeatherCondition 47 = "Foggy" ∧
    getWeatherCondition 60 = "Rainy" ∧
    getWeatherCondition 75 = "Snowy" ∧
    getWeatherCondition 81 = "Heavy Rain" ∧
    getWeatherCondition 99 = "Thunderstorm" ∧
    getWeatherCondition 84 = "Unknown" ∧
    airportCoords.lookup "ZZZ" = none ∧
    20 ≤ (fetchWeather "ZZZ" 0 0 0 .err).temp ∧
    (fetchWeather "ZZZ" 0 0 0 .err).condition ∈ ["Sunny", "Cloudy", "Clear"] :=
  ⟨c9_weather.2.1 2 (by omega) (by omega),
   c9_weather.2.2.1 47 (by omega) (by omega),
   c9_weather.2.2.2.1 60 (by omega) (by omega),
   c9_weather.2.2.2.2.1 75 (by omega) (by omega),
   c9_weather.2.2.2.2.2.1 81 (by omega) (by omega),
   c9_weather.2.2.2.2.2.2.1 99 (by omega),
   c9_weather.2.2.2.2.2.2.2.1 84 (by omega) (by omega) (by omega) (by omega)
     (by omega) (by omega) (by omega),
   rfl,
   (c9_weather.2.2.2.2.2.2.2.2 "ZZZ" 0 0 0 .err rfl).1,
   (c9_weather.2.2.2.2.2.2.2.2 "ZZZ" 0 0 0 .err rfl).2.2.1⟩
